import Mathlib

/-!
Shallow embedding of the scrape orchestration and scheduling engine of the
backend1 repository: `app/core/config.py`, `app/services/job_scheduler.py`
and `app/services/enhanced_job_scraper.py`.

Modelling conventions:
* timestamps are integers (minutes since an arbitrary epoch), matching the
  minute-granularity arithmetic of `is_healthy`;
* python floats are embedded as rationals;
* the md5 digest used for the deduplication fingerprint is abstracted to the
  digested content string itself (`lower(title)-lower(company)-source_id`);
  only equality of fingerprints matters to the code under study;
* network and database effects are exogenous inputs: each source fetch is
  described by the records it produced before failing plus an error flag, and
  the persistence gateway is an arbitrary function from the batch to the
  saved count.
-/

/-- Scraping-relevant configuration fields of `Settings` in
`app/core/config.py`.  Fields irrelevant to the scheduling engine (database
URLs, SMTP credentials, API keys) are omitted. -/
structure Settings where
  SCRAPING_ENABLED : Bool
  SCRAPING_INTERVAL_MINUTES : Int
  SCRAPING_MAX_JOBS_PER_RUN : Int
  SCRAPING_DELAY_BETWEEN_REQUESTS : ℚ
  RATE_LIMIT_REQUESTS_PER_MINUTE : Int
  RATE_LIMIT_BURST_SIZE : Int
  ENABLE_REMOTEOK : Bool
  ENABLE_YCOMBINATOR : Bool
  ENABLE_WELLFOUND : Bool
  ENABLE_OTTA : Bool
  ENABLE_ERROR_NOTIFICATIONS : Bool
  deriving DecidableEq, Repr

/-- `str.lower()` character by character (`String.toLower` restated over
the character list so that it reduces inside the kernel). -/
def str_lower (s : String) : String :=
  String.mk (s.data.map Char.toLower)

/-- The numeric value of a decimal digit character. -/
def digit_val (c : Char) : Option Nat :=
  if c.isDigit then some (c.toNat - 48) else none

/-- Accumulate decimal digits; any non-digit character fails the parse. -/
def parse_digits_aux (acc : Nat) : List Char → Option Nat
  | [] => some acc
  | c :: cs =>
      match digit_val c with
      | some d => parse_digits_aux (acc * 10 + d) cs
      | none => none

/-- Parse a nonempty run of decimal digits. -/
def parse_digits : List Char → Option Nat
  | [] => none
  | cs => parse_digits_aux 0 cs

/-- python `int(s)` on a decimal literal with an optional sign (the
behavior `config.py` relies on); `none` models the `ValueError` raised on
anything else. -/
def str_toInt (s : String) : Option Int :=
  match s.data with
  | '-' :: cs => (parse_digits cs).map (fun n => -(n : Int))
  | '+' :: cs => (parse_digits cs).map (fun n => (n : Int))
  | cs => (parse_digits cs).map (fun n => (n : Int))

/-- `os.getenv(key, dflt)` over an explicit environment. -/
def getenv (env : List (String × String)) (key dflt : String) : String :=
  (env.lookup key).getD dflt

/-- `os.getenv(key, dflt).lower() == "true"`, the boolean-flag idiom of
`config.py`. -/
def env_bool (env : List (String × String)) (key dflt : String) : Bool :=
  str_lower (getenv env key dflt) == "true"

/-- `int(os.getenv(key, str(dflt)))`: a missing variable yields the default,
a present but unparsable one raises `ValueError` (modelled as `none`). -/
def env_int (env : List (String × String)) (key : String) (dflt : Int) : Option Int :=
  match env.lookup key with
  | none => some dflt
  | some v => str_toInt v

/-- Construction of `Settings` at import time (`settings = Settings()` in
`config.py`).  The class body performs the `int(os.getenv(...))` conversions
with the defaults shown and no further validation; `none` models the process
failing to start on an unparsable integer.  The float-valued
`SCRAPING_DELAY_BETWEEN_REQUESTS` is kept at its default `2.0` (its parsing
is not needed by any property studied here). -/
def Settings.load (env : List (String × String)) : Option Settings :=
  match env_int env "SCRAPING_INTERVAL_MINUTES" 60,
        env_int env "SCRAPING_MAX_JOBS_PER_RUN" 200,
        env_int env "RATE_LIMIT_REQUESTS_PER_MINUTE" 100,
        env_int env "RATE_LIMIT_BURST_SIZE" 20 with
  | some i, some t, some r, some b =>
      some { SCRAPING_ENABLED := env_bool env "SCRAPING_ENABLED" "true"
             SCRAPING_INTERVAL_MINUTES := i
             SCRAPING_MAX_JOBS_PER_RUN := t
             SCRAPING_DELAY_BETWEEN_REQUESTS := 2
             RATE_LIMIT_REQUESTS_PER_MINUTE := r
             RATE_LIMIT_BURST_SIZE := b
             ENABLE_REMOTEOK := env_bool env "ENABLE_REMOTEOK" "true"
             ENABLE_YCOMBINATOR := env_bool env "ENABLE_YCOMBINATOR" "true"
             ENABLE_WELLFOUND := env_bool env "ENABLE_WELLFOUND" "true"
             ENABLE_OTTA := env_bool env "ENABLE_OTTA" "true"
             ENABLE_ERROR_NOTIFICATIONS := env_bool env "ENABLE_ERROR_NOTIFICATIONS" "true" }
  | _, _, _, _ => none

/-- The settings obtained from an empty environment: every field at its
`config.py` default. -/
def default_settings : Settings :=
  { SCRAPING_ENABLED := true
    SCRAPING_INTERVAL_MINUTES := 60
    SCRAPING_MAX_JOBS_PER_RUN := 200
    SCRAPING_DELAY_BETWEEN_REQUESTS := 2
    RATE_LIMIT_REQUESTS_PER_MINUTE := 100
    RATE_LIMIT_BURST_SIZE := 20
    ENABLE_REMOTEOK := true
    ENABLE_YCOMBINATOR := true
    ENABLE_WELLFOUND := true
    ENABLE_OTTA := true
    ENABLE_ERROR_NOTIFICATIONS := true }

/-- One registration made by `JobScrapingScheduler.start`: job id, interval
of its `IntervalTrigger` (`none` for the cron / one-shot jobs), and
`max_instances`. -/
structure ScheduledJob where
  id : String
  interval_minutes : Option Int
  max_instances : Nat
  deriving DecidableEq, Repr

/-- `JobScrapingScheduler.start` (`job_scheduler.py` lines 245 to 299):
returns immediately when scraping is disabled, otherwise registers the
interval-triggered scrape task (interval taken verbatim from the settings,
with no bounds check), the daily cleanup task, the 30-minute health check,
and the one-shot initial scraping task. -/
def JobScrapingScheduler.start (st : Settings) : List ScheduledJob :=
  if st.SCRAPING_ENABLED = false then []
  else
    [⟨"job_scraping_task", some st.SCRAPING_INTERVAL_MINUTES, 1⟩,
     ⟨"job_cleanup_task", none, 1⟩,
     ⟨"health_check_task", some 30, 1⟩,
     ⟨"initial_scraping_task", none, 1⟩]

/-- `JobScrapingMetrics.__init__` state (`job_scheduler.py` lines 32 to 41). -/
structure JobScrapingMetrics where
  last_run : Option Int
  last_success : Option Int
  consecutive_failures : Nat
  total_runs : Nat
  total_jobs_scraped : Nat
  total_jobs_saved : Nat
  deriving DecidableEq, Repr

/-- The freshly constructed metrics object. -/
def JobScrapingMetrics.init : JobScrapingMetrics :=
  { last_run := none, last_success := none, consecutive_failures := 0
    total_runs := 0, total_jobs_scraped := 0, total_jobs_saved := 0 }

/-- `JobScrapingMetrics.record_run_start`. -/
def JobScrapingMetrics.record_run_start (m : JobScrapingMetrics) (now : Int) :
    JobScrapingMetrics :=
  { m with last_run := some now, total_runs := m.total_runs + 1 }

/-- `JobScrapingMetrics.record_run_success`. -/
def JobScrapingMetrics.record_run_success (m : JobScrapingMetrics) (now : Int)
    (jobs_scraped jobs_saved : Nat) : JobScrapingMetrics :=
  { m with last_success := some now
           consecutive_failures := 0
           total_jobs_scraped := m.total_jobs_scraped + jobs_scraped
           total_jobs_saved := m.total_jobs_saved + jobs_saved }

/-- `JobScrapingMetrics.record_run_failure`. -/
def JobScrapingMetrics.record_run_failure (m : JobScrapingMetrics) :
    JobScrapingMetrics :=
  { m with consecutive_failures := m.consecutive_failures + 1 }

/-- `JobScrapingMetrics.is_healthy` (`job_scheduler.py` lines 59 to 70):
false when no run was ever recorded; true when the last success lies within
`SCRAPING_INTERVAL_MINUTES * 2` minutes of now; otherwise true exactly when
fewer than 3 consecutive failures accumulated. -/
def JobScrapingMetrics.is_healthy (st : Settings) (m : JobScrapingMetrics)
    (now : Int) : Bool :=
  match m.last_run with
  | none => false
  | some _ =>
    match m.last_success with
    | some s =>
        if now - s ≤ st.SCRAPING_INTERVAL_MINUTES * 2 then true
        else decide (m.consecutive_failures < 3)
    | none => decide (m.consecutive_failures < 3)

/-- The dictionary returned by `JobScrapingMetrics.get_status` (the
`uptime_minutes` entry, a pure display value, is omitted). -/
structure MetricsStatus where
  last_run : Option Int
  last_success : Option Int
  consecutive_failures : Nat
  total_runs : Nat
  total_jobs_scraped : Nat
  total_jobs_saved : Nat
  is_healthy : Bool
  deriving DecidableEq, Repr

/-- `JobScrapingMetrics.get_status`. -/
def JobScrapingMetrics.get_status (st : Settings) (m : JobScrapingMetrics)
    (now : Int) : MetricsStatus :=
  { last_run := m.last_run, last_success := m.last_success
    consecutive_failures := m.consecutive_failures
    total_runs := m.total_runs
    total_jobs_scraped := m.total_jobs_scraped
    total_jobs_saved := m.total_jobs_saved
    is_healthy := m.is_healthy st now }

/-- The view returned by `JobScrapingScheduler.get_status` (`job_scheduler.py`
lines 364 to 388), restricted to the fields the claims mention. -/
structure SchedulerStatus where
  scheduler_running : Bool
  metrics : MetricsStatus
  scraping_enabled : Bool
  interval_minutes : Int
  deriving DecidableEq, Repr

/-- `JobScrapingScheduler.get_status`. -/
def JobScrapingScheduler.get_status (st : Settings) (running : Bool)
    (m : JobScrapingMetrics) (now : Int) : SchedulerStatus :=
  { scheduler_running := running
    metrics := m.get_status st now
    scraping_enabled := st.SCRAPING_ENABLED
    interval_minutes := st.SCRAPING_INTERVAL_MINUTES }

/-- The normalized record produced by an adapter (`JobData` in
`enhanced_job_scraper.py`).  `posted_date` is a timestamp integer. -/
structure JobData where
  title : String
  company : String
  description : String
  location : String
  salary_min : Option Int
  salary_max : Option Int
  job_type : String
  remote_type : String
  experience_level : String
  skills : List String
  external_url : String
  source : String
  posted_date : Int
  source_id : String
  deriving DecidableEq, Repr

/-- `EnhancedJobScraper._generate_job_hash`: the md5 digest of
`lower(title)-lower(company)-source_id`.  The digest step is abstracted to
the digested content itself; the code only ever compares fingerprints for
equality. -/
def generate_job_hash (j : JobData) : String :=
  str_lower j.title ++ "-" ++ str_lower j.company ++ "-" ++ j.source_id

/-- `EnhancedJobScraper._is_duplicate_job`: returns whether the hash was
already in `scraped_job_hashes` and the updated hash set (the set is
modelled as a list of hashes). -/
def is_duplicate_job (seen : List String) (j : JobData) : Bool × List String :=
  let h := generate_job_hash j
  if h ∈ seen then (true, seen) else (false, h :: seen)

/-- The results of `_is_duplicate_job` over a sequence of calls against one
`EnhancedJobScraper` instance whose hash set currently holds `seen`. -/
def is_duplicate_calls (seen : List String) : List JobData → List Bool
  | [] => []
  | j :: rest =>
      (is_duplicate_job seen j).1 :: is_duplicate_calls (is_duplicate_job seen j).2 rest

/-- The per-source scraping loop shared by every `scrape_*_jobs` method: for
each fetched record, append it unless `_is_duplicate_job` reports it seen,
threading the scraper hash set. -/
def scrape_loop (seen : List String) : List JobData → List JobData × List String
  | [] => ([], seen)
  | j :: rest =>
      let p := is_duplicate_job seen j
      let q := scrape_loop p.2 rest
      (if p.1 then q.1 else j :: q.1, q.2)

/-- One source fetch as seen by an adapter: the records successfully parsed
before any error, and whether the underlying fetch raised.  Every
`scrape_*_jobs` method wraps its body in a broad `try`/`except` that logs
and returns the records accumulated so far, so an error never escapes the
adapter. -/
structure SourceFetch where
  jobs : List JobData
  errored : Bool
  deriving DecidableEq, Repr

/-- One adapter call (`scrape_remoteok_jobs` etc.): a disabled source returns
`[]` immediately without touching the hash set; an enabled one runs the
dedup loop over whatever the fetch produced (on error the accumulated
records are still returned). -/
def scrape_source (enabled : Bool) (f : SourceFetch) (seen : List String) :
    List JobData × List String :=
  if enabled then scrape_loop seen f.jobs else ([], seen)

/-- `RateLimiter.__init__` state: the requests-per-minute rate, the burst
size and the current token count (a python float, embedded as ℚ).
`last_update` is folded into the exogenous elapsed-time input of
`acquire`. -/
structure RateLimiter where
  requests_per_minute : ℚ
  burst_size : ℚ
  tokens : ℚ
  deriving DecidableEq, Repr

/-- A freshly constructed `RateLimiter`: `tokens = burst_size`. -/
def RateLimiter.init (rpm burst : ℚ) : RateLimiter :=
  { requests_per_minute := rpm, burst_size := burst, tokens := burst }

/-- `RateLimiter.acquire` (`enhanced_job_scraper.py` lines 123 to 142) with
`time_passed` the elapsed time since the last update: refill at
`requests_per_minute / 60` tokens per second capped at `burst_size`; if at
least one token is available consume it, otherwise sleep until one token
accrues and set the count to zero. -/
def RateLimiter.acquire (rl : RateLimiter) (time_passed : ℚ) : RateLimiter :=
  let refilled := min rl.burst_size (rl.tokens + time_passed * (rl.requests_per_minute / 60))
  if 1 ≤ refilled then { rl with tokens := refilled - 1 }
  else { rl with tokens := 0 }

/-- A sequence of `acquire` calls with the given elapsed times between
them. -/
def RateLimiter.acquireSeq (rl : RateLimiter) (els : List ℚ) : RateLimiter :=
  els.foldl RateLimiter.acquire rl

/-- `random.uniform(a, b)` as a function of a unit-interval draw `u`. -/
def random_uniform (a b u : ℚ) : ℚ := a + u * (b - a)

/-- The jittered pre-request sleep of `_make_request` line 233:
`random.uniform(0.5, settings.SCRAPING_DELAY_BETWEEN_REQUESTS)`. -/
def jitter_delay (st : Settings) (u : ℚ) : ℚ :=
  random_uniform (1/2) st.SCRAPING_DELAY_BETWEEN_REQUESTS u

/-- What the network does on one attempt of `_make_request`: success, an
`asyncio.TimeoutError`, an `aiohttp.ClientError` that is not a response
error (connection failure), or a completed response with the given HTTP
status. -/
inductive ReqEvent where
  | success
  | timeout
  | connError
  | httpStatus (code : Nat)
  deriving DecidableEq, Repr

/-- What escapes one execution of the `_make_request` body (after its
`try`/`except` clauses). -/
inductive ReqOutcome where
  | ok
  | jobScrapeError
  | clientError
  deriving DecidableEq, Repr

/-- One execution of the `_make_request` body (`enhanced_job_scraper.py`
lines 223 to 253): `raise_for_status` turns a 4xx/5xx response into
`aiohttp.ClientResponseError`, which the `except` clause converts to
`JobScrapeError`; an `asyncio.TimeoutError` is likewise converted to
`JobScrapeError`; a bare connection-level `aiohttp.ClientError` matches
neither `except` clause and escapes unchanged. -/
def request_body : ReqEvent → ReqOutcome
  | .success => .ok
  | .timeout => .jobScrapeError
  | .connError => .clientError
  | .httpStatus code => if 400 ≤ code then .jobScrapeError else .ok

/-- Whether the `backoff.on_exception` decorator retries the escaped
exception: its tuple is `(aiohttp.ClientError, asyncio.TimeoutError)`;
`JobScrapeError` is neither. -/
def backoff_retryable : ReqOutcome → Bool
  | .clientError => true
  | _ => false

/-- The `backoff.on_exception(..., max_tries=3)` driver: run the body for
attempt `k`; stop on success or on a non-retryable exception; otherwise
retry while tries remain.  Returns the number of attempts made and the
final outcome.  (`max_time=60` only truncates the backoff sleeps and is
immaterial to the attempt counts studied here.) -/
def backoff_run (events : Nat → ReqEvent) (k : Nat) : Nat → Nat × ReqOutcome
  | 0 => (0, ReqOutcome.ok)
  | fuel + 1 =>
      match request_body (events k) with
      | .ok => (1, .ok)
      | out =>
          if backoff_retryable out = true ∧ 0 < fuel then
            ((backoff_run events (k + 1) fuel).1 + 1, (backoff_run events (k + 1) fuel).2)
          else (1, out)

/-- Number of attempts `_make_request` makes when attempt `k` meets
`events k`. -/
def make_request_attempts (events : Nat → ReqEvent) : Nat :=
  (backoff_run events 0 3).1

/-- The exception (or success) surfaced by `_make_request` to the adapter. -/
def make_request_result (events : Nat → ReqEvent) : ReqOutcome :=
  (backoff_run events 0 3).2

/-- The fetch behavior of the four sources wired into
`JobDataManager.scrape_all_sources`, in the order the tasks are created and
awaited. -/
structure RunInputs where
  remoteok : SourceFetch
  ycombinator : SourceFetch
  wellfound : SourceFetch
  otta : SourceFetch
  deriving DecidableEq, Repr

/-- `enabled_sources` as computed in `scrape_all_sources` lines 593 to 598. -/
def enabled_sources (st : Settings) : Nat :=
  (if st.ENABLE_REMOTEOK then 1 else 0) + (if st.ENABLE_YCOMBINATOR then 1 else 0)
    + (if st.ENABLE_WELLFOUND then 1 else 0) + (if st.ENABLE_OTTA then 1 else 0)

/-- `jobs_per_source = max(1, total_jobs // enabled_sources)` (line 604). -/
def jobs_per_source (total_jobs enabled : Nat) : Nat :=
  max 1 (total_jobs / enabled)

/-- The body of `scrape_all_sources` once past its guards: a fresh
`EnhancedJobScraper` is constructed (its `scraped_job_hashes` set starts
empty), each enabled adapter is awaited in task order with the hash set
threaded through, and the per-source result counts are collected.  Returns
the aggregated batch `all_jobs` and the per-source count list. -/
def scrape_all_sources_batch (st : Settings) (inp : RunInputs) :
    List JobData × List (String × Nat) :=
  let p1 := scrape_source st.ENABLE_REMOTEOK inp.remoteok []
  let p2 := scrape_source st.ENABLE_YCOMBINATOR inp.ycombinator p1.2
  let p3 := scrape_source st.ENABLE_WELLFOUND inp.wellfound p2.2
  let p4 := scrape_source st.ENABLE_OTTA inp.otta p3.2
  (p1.1 ++ p2.1 ++ p3.1 ++ p4.1,
   (if st.ENABLE_REMOTEOK then [("RemoteOK", p1.1.length)] else [])
     ++ (if st.ENABLE_YCOMBINATOR then [("Y Combinator", p2.1.length)] else [])
     ++ (if st.ENABLE_WELLFOUND then [("Wellfound", p3.1.length)] else [])
     ++ (if st.ENABLE_OTTA then [("Otta", p4.1.length)] else []))

/-- The results dictionary of `scrape_all_sources`. -/
structure RunResults where
  per_source : List (String × Nat)
  total_scraped : Nat
  total_saved : Nat
  deriving DecidableEq, Repr

/-- `JobDataManager.scrape_all_sources` (`enhanced_job_scraper.py` lines 580
to 647).  `none` models the empty dictionary returned when scraping is
disabled or no source is enabled.  `db` is the persistence gateway: the
saved count `_save_jobs_to_database` reports for the batch (that method
returns 0 outright for an empty batch and swallows every database error
internally, so it never raises). -/
def scrape_all_sources (st : Settings) (inp : RunInputs)
    (db : List JobData → Nat) : Option RunResults :=
  if st.SCRAPING_ENABLED = false then none
  else if enabled_sources st = 0 then none
  else
    let b := scrape_all_sources_batch st inp
    some { per_source := b.2
           total_scraped := b.1.length
           total_saved := if b.1.isEmpty then 0 else db b.1 }

/-- `run_enhanced_job_scraper` followed by the `results.get` reads with default 0 for the total-scraped and total-saved keys reads of `scrape_jobs_task`: the empty
dictionary yields `(0, 0)`. -/
def run_enhanced_job_scraper (st : Settings) (inp : RunInputs)
    (db : List JobData → Nat) : Nat × Nat :=
  match scrape_all_sources st inp db with
  | none => (0, 0)
  | some r => (r.total_scraped, r.total_saved)

/-- Whether at least one enabled source reported a fetch error in this run. -/
def some_source_errored (st : Settings) (inp : RunInputs) : Bool :=
  (st.ENABLE_REMOTEOK && inp.remoteok.errored)
    || (st.ENABLE_YCOMBINATOR && inp.ycombinator.errored)
    || (st.ENABLE_WELLFOUND && inp.wellfound.errored)
    || (st.ENABLE_OTTA && inp.otta.errored)

/-- The observable outcome of one invocation of
`JobScrapingScheduler.scrape_jobs_task`: the metrics object after the call,
whether `run_enhanced_job_scraper` was invoked (a fetch was performed), the
number of `_send_alert` calls and the number of informational success
notifications. -/
structure TaskOutput where
  metrics : JobScrapingMetrics
  fetched : Bool
  alerts : Nat
  info_messages : Nat
  deriving Repr

/-- `JobScrapingScheduler.scrape_jobs_task` (`job_scheduler.py` lines 114 to
162) given the outcome of `run_enhanced_job_scraper`: `some (scraped,
saved)` when the scraper returned a dictionary, `none` when an exception
escaped it (the only path to `record_run_failure`).  `record_run_start`
always executes first; a disabled configuration returns silently; an open
circuit breaker (5 or more consecutive failures) returns after one alert;
otherwise the totals are recorded as a success and an informational
notification is sent when enabled and `saved > 0`. -/
def scrape_jobs_task (st : Settings) (m : JobScrapingMetrics) (now : Int)
    (scrape : Option (Nat × Nat)) : TaskOutput :=
  let m1 := m.record_run_start now
  if st.SCRAPING_ENABLED = false then
    { metrics := m1, fetched := false, alerts := 0, info_messages := 0 }
  else if 5 ≤ m1.consecutive_failures then
    { metrics := m1, fetched := false, alerts := 1, info_messages := 0 }
  else
    match scrape with
    | some (scraped, saved) =>
        { metrics := m1.record_run_success now scraped saved
          fetched := true
          alerts := 0
          info_messages := if st.ENABLE_ERROR_NOTIFICATIONS && decide (0 < saved) then 1 else 0 }
    | none =>
        { metrics := m1.record_run_failure, fetched := true, alerts := 1, info_messages := 0 }

/-- `scrape_jobs_task` composed with the actual scraper pipeline on a run
where no unexpected exception occurs. -/
def scrape_jobs_task_run (st : Settings) (m : JobScrapingMetrics) (now : Int)
    (inp : RunInputs) (db : List JobData → Nat) : TaskOutput :=
  scrape_jobs_task st m now (some (run_enhanced_job_scraper st inp db))

/-- A sequence of scheduled triggers of `scrape_jobs_task`: each element
carries the trigger time and the scraper outcome for that run.  Returns the
final metrics and the total number of `_send_alert` calls. -/
def runTriggerSeq (st : Settings) (m : JobScrapingMetrics) :
    List (Int × Option (Nat × Nat)) → JobScrapingMetrics × Nat
  | [] => (m, 0)
  | (now, sc) :: rest =>
      let out := scrape_jobs_task st m now sc
      let q := runTriggerSeq st out.metrics rest
      (q.1, out.alerts + q.2)

/-- The batch of records a single scheduled run emits (the deduplicated
`all_jobs` list handed to persistence), empty when the run does not
execute. -/
def run_batch (st : Settings) (inp : RunInputs) : List JobData :=
  if st.SCRAPING_ENABLED = false then []
  else if enabled_sources st = 0 then []
  else (scrape_all_sources_batch st inp).1

/-- A concrete posting used in counterexamples and witnesses. -/
def job_backend_engineer : JobData :=
  { title := "Backend Engineer", company := "Acme", description := "d"
    location := "Remote", salary_min := none, salary_max := none
    job_type := "full-time", remote_type := "remote", experience_level := "mid"
    skills := [], external_url := "", source := "remoteok", posted_date := 0
    source_id := "42" }

/-- A second concrete posting with a distinct fingerprint. -/
def job_data_engineer : JobData :=
  { job_backend_engineer with title := "Data Engineer", source := "ycombinator", source_id := "7" }

/-- A third concrete posting with a distinct fingerprint. -/
def job_ml_engineer : JobData :=
  { job_backend_engineer with title := "ML Engineer", source := "wellfound", source_id := "8" }

/-- A run in which every source fetch errors before producing any record. -/
def inp_all_error : RunInputs :=
  { remoteok := ⟨[], true⟩, ycombinator := ⟨[], true⟩
    wellfound := ⟨[], true⟩, otta := ⟨[], true⟩ }

/-- A run in which RemoteOK returns the one concrete posting and the other
sources return nothing. -/
def inp_one_posting : RunInputs :=
  { remoteok := ⟨[job_backend_engineer], false⟩, ycombinator := ⟨[], false⟩
    wellfound := ⟨[], false⟩, otta := ⟨[], false⟩ }

/-- Claim C2 as a proposition: a fingerprint emitted by one scheduled run is
never emitted again by a later run of the same process.  The code shares no
scraper state between runs (`scrape_all_sources` builds a fresh
`EnhancedJobScraper`, hence a fresh `scraped_job_hashes`, on every call), so
consecutive runs are independent invocations of the same pipeline on their
respective fetch inputs. -/
def dedup_survives_runs_claim : Prop :=
  ∀ (st : Settings) (inp1 inp2 : RunInputs) (f : String),
    f ∈ (run_batch st inp1).map generate_job_hash →
      f ∉ (run_batch st inp2).map generate_job_hash

/-- An environment assigning a 1-minute scrape interval and a per-run target
of 5 jobs, both outside the bounds the specification says are enforced. -/
def bad_env : List (String × String) :=
  [("SCRAPING_INTERVAL_MINUTES", "1"), ("SCRAPING_MAX_JOBS_PER_RUN", "5")]

/-- One `RateLimiter.acquire` call keeps the token count within `[0,
burst_size]` (given a nonnegative burst) and leaves the burst size
unchanged. -/
theorem RateLimiter.acquire_bounds (rl : RateLimiter) (e : ℚ)
    (h : 0 ≤ rl.burst_size) :
    (0 ≤ (rl.acquire e).tokens ∧ (rl.acquire e).tokens ≤ rl.burst_size) ∧
      (rl.acquire e).burst_size = rl.burst_size := by
  unfold RateLimiter.acquire
  simp only
  split
  case isTrue hge =>
    have hmin := min_le_left rl.burst_size (rl.tokens + e * (rl.requests_per_minute / 60))
    exact ⟨⟨by linarith, by linarith⟩, rfl⟩
  case isFalse hlt =>
    exact ⟨⟨le_refl 0, h⟩, rfl⟩

/-- The invariant of `RateLimiter.acquire_bounds` is preserved along any
sequence of acquisitions. -/
theorem RateLimiter.acquireSeq_bounds (els : List ℚ) :
    ∀ (rl : RateLimiter), 0 ≤ rl.tokens → rl.tokens ≤ rl.burst_size →
      0 ≤ rl.burst_size →
      (0 ≤ (rl.acquireSeq els).tokens ∧
        (rl.acquireSeq els).tokens ≤ rl.burst_size) ∧
        (rl.acquireSeq els).burst_size = rl.burst_size := by
  induction els with
  | nil => intro rl h0 h1 h2; exact ⟨⟨h0, h1⟩, rfl⟩
  | cons e rest ih =>
      intro rl h0 h1 h2
      have hstep := RateLimiter.acquire_bounds rl e h2
      have hrec := ih (rl.acquire e) hstep.1.1 (by rw [hstep.2]; exact hstep.1.2)
        (by rw [hstep.2]; exact h2)
      have hseq : rl.acquireSeq (e :: rest) = (rl.acquire e).acquireSeq rest := rfl
      rw [hseq]
      exact ⟨⟨hrec.1.1, by rw [← hstep.2]; exact hrec.1.2⟩, by rw [hrec.2, hstep.2]⟩

/-- C7: for any sequence of `acquire` calls against the token bucket (each
with an arbitrary elapsed time since the previous update), the token count
stays within `[0, burst_size]` — in particular after the wait-then-zero
path.  Quantifying over all call sequences covers the state before and
after every individual acquisition. -/
theorem rate_limiter_tokens_bounded (rpm burst : ℚ) (hb : 0 ≤ burst)
    (els : List ℚ) :
    0 ≤ ((RateLimiter.init rpm burst).acquireSeq els).tokens ∧
      ((RateLimiter.init rpm burst).acquireSeq els).tokens ≤ burst := by
  have h := RateLimiter.acquireSeq_bounds els (RateLimiter.init rpm burst)
    hb (le_refl burst) hb
  exact ⟨h.1.1, h.1.2⟩

/-- Witness for C7 at a concrete limiter and call sequence. -/
theorem rate_limiter_tokens_bounded_witness :
    0 ≤ ((RateLimiter.init 100 20).acquireSeq [0, 1]).tokens ∧
      ((RateLimiter.init 100 20).acquireSeq [0, 1]).tokens ≤ 20 :=
  rate_limiter_tokens_bounded 100 20 (by norm_num) [0, 1]

/-- C3: evaluation of `_make_request` retry behavior.  A request that times
out on every attempt is tried exactly once — not 3 times — because the
`except asyncio.TimeoutError` clause inside the body converts the timeout
to `JobScrapeError` before the `backoff` decorator (whose retryable tuple
is `(aiohttp.ClientError, asyncio.TimeoutError)` with `max_tries=3`) can
see it; 5xx and 429 responses are likewise converted and tried once.  Only
a bare connection-level `aiohttp.ClientError` is retried to the declared 3
attempts. -/
theorem make_request_retry_attempts_eval :
    make_request_attempts (fun _ => ReqEvent.timeout) = 1 ∧
    make_request_result (fun _ => ReqEvent.timeout) = ReqOutcome.jobScrapeError ∧
    make_request_attempts (fun _ => ReqEvent.httpStatus 500) = 1 ∧
    make_request_attempts (fun _ => ReqEvent.httpStatus 429) = 1 ∧
    make_request_attempts (fun _ => ReqEvent.connError) = 3 ∧
    make_request_result (fun _ => ReqEvent.connError) = ReqOutcome.clientError :=
  ⟨rfl, rfl, rfl, rfl, rfl, rfl⟩

/-- C6 counterexample: the initial metrics state has fewer than 3
consecutive failures, yet `is_healthy` reports false (its first clause
returns false whenever no run was ever recorded), so healthiness is not
equivalent to recent-success-or-few-failures. -/
theorem is_healthy_initial_state_cx :
    JobScrapingMetrics.init.consecutive_failures < 3 ∧
      JobScrapingMetrics.is_healthy default_settings JobScrapingMetrics.init 0 = false := by
  constructor
  · decide
  · rfl

/-- C6 as amended: `is_healthy` is true iff a run has been recorded AND
(the last success lies within `2 × SCRAPING_INTERVAL_MINUTES` of now, or
fewer than 3 consecutive failures accumulated). -/
theorem is_healthy_characterization (st : Settings) (m : JobScrapingMetrics)
    (now : Int) :
    JobScrapingMetrics.is_healthy st m now = true ↔
      (m.last_run ≠ none ∧
        ((∃ s, m.last_success = some s ∧
            now - s ≤ 2 * st.SCRAPING_INTERVAL_MINUTES)
          ∨ m.consecutive_failures < 3)) := by
  obtain ⟨lr, ls, cf, tr, tsc, tsv⟩ := m
  cases lr with
  | none => simp [JobScrapingMetrics.is_healthy]
  | some r =>
      cases ls with
      | none => simp [JobScrapingMetrics.is_healthy]
      | some s =>
          simp only [JobScrapingMetrics.is_healthy]
          split
          case isTrue h =>
            simp only [true_iff]
            exact ⟨Option.some_ne_none r, Or.inl ⟨s, rfl, by omega⟩⟩
          case isFalse h =>
            simp only [decide_eq_true_eq, ne_eq, Option.some_ne_none,
              not_false_iff, true_and, Option.some.injEq]
            constructor
            · intro hcf; exact Or.inr hcf
            · rintro (⟨s2, hs2, hle⟩ | hcf)
              · subst hs2; omega
              · exact hcf

/-- C10: a scheduled trigger that is skipped — scraping disabled or circuit
breaker open — still runs `record_run_start`, so it increments `total_runs`
and updates `last_run`, while `consecutive_failures`, `last_success`,
`total_jobs_scraped` and `total_jobs_saved` are untouched and no fetch is
performed. -/
theorem skipped_run_frame (st : Settings) (m : JobScrapingMetrics) (now : Int)
    (sc : Option (Nat × Nat))
    (h : st.SCRAPING_ENABLED = false ∨ 5 ≤ m.consecutive_failures) :
    (scrape_jobs_task st m now sc).metrics.total_runs = m.total_runs + 1 ∧
    (scrape_jobs_task st m now sc).metrics.last_run = some now ∧
    (scrape_jobs_task st m now sc).metrics.consecutive_failures = m.consecutive_failures ∧
    (scrape_jobs_task st m now sc).metrics.last_success = m.last_success ∧
    (scrape_jobs_task st m now sc).metrics.total_jobs_scraped = m.total_jobs_scraped ∧
    (scrape_jobs_task st m now sc).metrics.total_jobs_saved = m.total_jobs_saved ∧
    (scrape_jobs_task st m now sc).fetched = false := by
  unfold scrape_jobs_task
  cases hen : st.SCRAPING_ENABLED with
  | false => simp [JobScrapingMetrics.record_run_start]
  | true =>
      rcases h with h | h
      · rw [hen] at h; exact absurd h (by simp)
      · simp [JobScrapingMetrics.record_run_start, h]

/-- Witness for C10: a breaker-open trigger at concrete values. -/
theorem skipped_run_frame_witness :
    ((5:Nat) ≤ ({ JobScrapingMetrics.init with consecutive_failures := 5 } : JobScrapingMetrics).consecutive_failures) ∧
    (scrape_jobs_task default_settings
        { JobScrapingMetrics.init with consecutive_failures := 5 } 3 (some (4, 4))).metrics.total_runs =
      ({ JobScrapingMetrics.init with consecutive_failures := 5 } : JobScrapingMetrics).total_runs + 1 :=
  ⟨by decide,
    (skipped_run_frame default_settings
      { JobScrapingMetrics.init with consecutive_failures := 5 } 3 (some (4, 4))
      (Or.inr (by decide))).1⟩

/-- C8 counterexample: with the default 2.0-second base delay, the random
draw 0 yields a sleep of 0.5 s, below the claimed lower bound of
`0.5 × baseDelay = 1.0` s — the code jitters over `[0.5, baseDelay]`
seconds with a fixed lower endpoint, not `[0.5 × baseDelay, baseDelay]`. -/
theorem jitter_delay_below_claimed_bound_cx :
    jitter_delay default_settings 0 = 1/2 ∧
      ¬((1/2) * default_settings.SCRAPING_DELAY_BETWEEN_REQUESTS ≤
          jitter_delay default_settings 0) := by
  constructor
  · norm_num [jitter_delay, random_uniform, default_settings]
  · norm_num [jitter_delay, random_uniform, default_settings]

/-- C8 as amended: for every possible draw, the pre-request sleep lies in
`[0.5, baseDelay]` seconds (fixed lower endpoint of half a second),
provided the configured base delay is at least 0.5 s. -/
theorem jitter_delay_bounds (st : Settings) (u : ℚ) (h0 : 0 ≤ u) (h1 : u ≤ 1)
    (hb : 1/2 ≤ st.SCRAPING_DELAY_BETWEEN_REQUESTS) :
    1/2 ≤ jitter_delay st u ∧
      jitter_delay st u ≤ st.SCRAPING_DELAY_BETWEEN_REQUESTS := by
  unfold jitter_delay random_uniform
  constructor <;> nlinarith

/-- Witness for C8 at the default settings and the midpoint draw. -/
theorem jitter_delay_bounds_witness :
    1/2 ≤ jitter_delay default_settings (1/2) ∧
      jitter_delay default_settings (1/2) ≤ default_settings.SCRAPING_DELAY_BETWEEN_REQUESTS :=
  jitter_delay_bounds default_settings (1/2) (by norm_num) (by norm_num)
    (by norm_num [default_settings])

/-- C4 counterexample: with the breaker open (5 consecutive failures) and
no intervening success or reset, two consecutive skipped triggers emit two
alert notifications — one per skipped interval — not at most one per
suspension episode. -/
theorem breaker_alert_every_interval_cx :
    (runTriggerSeq default_settings
        { JobScrapingMetrics.init with consecutive_failures := 5 }
        [(0, none), (1, none)]).2 = 2 ∧
      ¬((runTriggerSeq default_settings
          { JobScrapingMetrics.init with consecutive_failures := 5 }
          [(0, none), (1, none)]).2 ≤ 1) := by
  constructor
  · rfl
  · decide

/-- C4 as amended: while the circuit breaker stays open, every skipped
trigger sends exactly one alert, so an episode of `n` consecutive skipped
triggers emits `n` alerts; the breaker state itself is unchanged by the
skips. -/
theorem breaker_alert_on_each_skipped_trigger (st : Settings)
    (hen : st.SCRAPING_ENABLED = true)
    (trigs : List (Int × Option (Nat × Nat))) :
    ∀ (m : JobScrapingMetrics), 5 ≤ m.consecutive_failures →
      (runTriggerSeq st m trigs).2 = trigs.length ∧
        ((runTriggerSeq st m trigs).1).consecutive_failures = m.consecutive_failures := by
  induction trigs with
  | nil => intro m _; exact ⟨rfl, rfl⟩
  | cons p rest ih =>
      intro m hm
      obtain ⟨now, sc⟩ := p
      have hout : scrape_jobs_task st m now sc =
          { metrics := m.record_run_start now, fetched := false, alerts := 1,
            info_messages := 0 } := by
        unfold scrape_jobs_task
        rw [hen, if_neg (by simp),
          if_pos (show 5 ≤ (m.record_run_start now).consecutive_failures from hm)]
      have hrec := ih (m.record_run_start now) hm
      simp only [runTriggerSeq, hout]
      refine ⟨?_, hrec.2⟩
      rw [hrec.1]
      simp [Nat.add_comm]

/-- Witness for C4 as amended: three skipped triggers, three alerts. -/
theorem breaker_alert_on_each_skipped_trigger_witness :
    (runTriggerSeq default_settings
        { JobScrapingMetrics.init with consecutive_failures := 6 }
        [(2, none), (3, none), (4, none)]).2 = 3 ∧
      ((runTriggerSeq default_settings
          { JobScrapingMetrics.init with consecutive_failures := 6 }
          [(2, none), (3, none), (4, none)]).1).consecutive_failures = 6 :=
  breaker_alert_on_each_skipped_trigger default_settings rfl
    [(2, none), (3, none), (4, none)]
    { JobScrapingMetrics.init with consecutive_failures := 6 } (by decide)

/-- Each trigger of a run whose scraper raises takes the failure branch, so
a block of failing triggers starting below the breaker threshold adds one
consecutive failure per run. -/
theorem failing_runs_accumulate (st : Settings)
    (hen : st.SCRAPING_ENABLED = true) (ts : List Int) :
    ∀ (m : JobScrapingMetrics), m.consecutive_failures + ts.length ≤ 5 →
      ((runTriggerSeq st m (ts.map (fun t => (t, none)))).1).consecutive_failures
        = m.consecutive_failures + ts.length := by
  induction ts with
  | nil => intro m _; simp [runTriggerSeq]
  | cons t rest ih =>
      intro m h
      have hcf : m.consecutive_failures < 5 := by
        simp only [List.length_cons] at h; omega
      have hout : scrape_jobs_task st m t none =
          { metrics := (m.record_run_start t).record_run_failure, fetched := true,
            alerts := 1, info_messages := 0 } := by
        unfold scrape_jobs_task
        rw [hen, if_neg (by simp),
          if_neg (show ¬(5 ≤ (m.record_run_start t).consecutive_failures) from by
            have he : (m.record_run_start t).consecutive_failures
                = m.consecutive_failures := rfl
            omega)]
      have hrec := ih ((m.record_run_start t).record_run_failure) (by
        have he : ((m.record_run_start t).record_run_failure).consecutive_failures
            = m.consecutive_failures + 1 := rfl
        simp only [List.length_cons] at h
        omega)
      simp only [List.map_cons, runTriggerSeq, hout]
      rw [hrec]
      have he : ((m.record_run_start t).record_run_failure).consecutive_failures
          = m.consecutive_failures + 1 := rfl
      simp only [List.length_cons, he]
      omega

/-- C5: after 5 consecutive failing runs starting from a clean failure
count, the 6th scheduled trigger returns before invoking the scraper (no
fetch) and the scheduler status reports 5 or more consecutive failures —
the condition the specification names `Suspended`, which is what
`get_status` exposes of the suspension. -/
theorem sixth_trigger_skips_and_reports_suspended (st : Settings)
    (hen : st.SCRAPING_ENABLED = true) (m : JobScrapingMetrics)
    (hm : m.consecutive_failures = 0) (t1 t2 t3 t4 t5 t6 now : Int)
    (sc : Option (Nat × Nat)) (running : Bool) :
    (scrape_jobs_task st
        ((runTriggerSeq st m [(t1, none), (t2, none), (t3, none), (t4, none), (t5, none)]).1)
        t6 sc).fetched = false ∧
    5 ≤ (JobScrapingScheduler.get_status st running
          (scrape_jobs_task st
            ((runTriggerSeq st m [(t1, none), (t2, none), (t3, none), (t4, none), (t5, none)]).1)
            t6 sc).metrics now).metrics.consecutive_failures := by
  have hlist : ([(t1, none), (t2, none), (t3, none), (t4, none), (t5, none)] :
      List (Int × Option (Nat × Nat)))
      = [t1, t2, t3, t4, t5].map (fun t => (t, none)) := rfl
  have hcf5 : ((runTriggerSeq st m
      ([t1, t2, t3, t4, t5].map (fun t => (t, none)))).1).consecutive_failures = 5 := by
    have h := failing_runs_accumulate st hen [t1, t2, t3, t4, t5] m (by simp [hm])
    simpa [hm] using h
  rw [hlist]
  have hskip : scrape_jobs_task st
      ((runTriggerSeq st m ([t1, t2, t3, t4, t5].map (fun t => (t, none)))).1) t6 sc =
      { metrics := ((runTriggerSeq st m
          ([t1, t2, t3, t4, t5].map (fun t => (t, none)))).1).record_run_start t6
        fetched := false, alerts := 1, info_messages := 0 } := by
    unfold scrape_jobs_task
    rw [hen, if_neg (by simp), if_pos (show 5 ≤ (((runTriggerSeq st m
      ([t1, t2, t3, t4, t5].map (fun t => (t, none)))).1).record_run_start t6).consecutive_failures from by
        have he : (((runTriggerSeq st m
            ([t1, t2, t3, t4, t5].map (fun t => (t, none)))).1).record_run_start t6).consecutive_failures
            = ((runTriggerSeq st m
              ([t1, t2, t3, t4, t5].map (fun t => (t, none)))).1).consecutive_failures := rfl
        omega)]
  rw [hskip]
  refine ⟨rfl, ?_⟩
  show 5 ≤ (((runTriggerSeq st m
    ([t1, t2, t3, t4, t5].map (fun t => (t, none)))).1).record_run_start t6).consecutive_failures
  have he : (((runTriggerSeq st m
      ([t1, t2, t3, t4, t5].map (fun t => (t, none)))).1).record_run_start t6).consecutive_failures
      = ((runTriggerSeq st m
        ([t1, t2, t3, t4, t5].map (fun t => (t, none)))).1).consecutive_failures := rfl
  omega

/-- Witness for C5 at concrete settings, times and scraper outcome. -/
theorem sixth_trigger_skips_and_reports_suspended_witness :
    (scrape_jobs_task default_settings
        ((runTriggerSeq default_settings JobScrapingMetrics.init
          [(1, none), (2, none), (3, none), (4, none), (5, none)]).1)
        6 (some (9, 9))).fetched = false ∧
    5 ≤ (JobScrapingScheduler.get_status default_settings true
          (scrape_jobs_task default_settings
            ((runTriggerSeq default_settings JobScrapingMetrics.init
              [(1, none), (2, none), (3, none), (4, none), (5, none)]).1)
            6 (some (9, 9))).metrics 7).metrics.consecutive_failures :=
  sixth_trigger_skips_and_reports_suspended default_settings rfl
    JobScrapingMetrics.init rfl 1 2 3 4 5 6 7 (some (9, 9)) true

/-- The result of the `i`-th `_is_duplicate_job` call in a sequence of calls
against one scraper instance: true iff the fingerprint occurred in an
earlier call of the sequence or was already in the hash set of the instance. -/
theorem is_duplicate_calls_get (js : List JobData) :
    ∀ (seen : List String) (i : Nat) (j : JobData), js.get? i = some j →
      (is_duplicate_calls seen js).get? i =
        some (decide (generate_job_hash j ∈ (js.take i).map generate_job_hash
          ∨ generate_job_hash j ∈ seen)) := by
  induction js with
  | nil => intro seen i j h; simp at h
  | cons a rest ih =>
      intro seen i j h
      cases i with
      | zero =>
          rw [List.get?_cons_zero, Option.some.injEq] at h
          subst h
          simp only [is_duplicate_calls, is_duplicate_job, List.take_zero,
            List.map_nil, List.not_mem_nil, false_or, List.get?_cons_zero]
          by_cases hmem : generate_job_hash a ∈ seen <;> simp [hmem]
      | succ n =>
          rw [List.get?_cons_succ] at h
          simp only [is_duplicate_calls, List.get?_cons_succ]
          rw [ih _ n j h, Option.some.injEq, decide_eq_decide]
          simp only [is_duplicate_job, List.take_succ_cons, List.map_cons,
            List.mem_cons]
          by_cases hmem : generate_job_hash a ∈ seen
          · simp only [hmem, if_true]
            constructor
            · rintro (hp | hp)
              · exact Or.inl (Or.inr hp)
              · exact Or.inr hp
            · rintro ((heq | hp) | hp)
              · exact Or.inr (heq ▸ hmem)
              · exact Or.inl hp
              · exact Or.inr hp
          · simp only [hmem, if_false, List.mem_cons]
            tauto

/-- C2 counterexample: a posting fetched in one scheduled run and fetched
again in a later run of the same process is emitted by both runs:
`scrape_all_sources` constructs a fresh `EnhancedJobScraper` — hence a
fresh, empty `scraped_job_hashes` — on every call, so no fingerprint state
survives from one run to the next and the claimed cross-run suppression
fails. -/
theorem dedup_set_reset_between_runs_cx :
    (generate_job_hash job_backend_engineer ∈
      (run_batch default_settings inp_one_posting).map generate_job_hash) ∧
    ¬ dedup_survives_runs_claim := by
  refine ⟨by decide, fun h => ?_⟩
  exact (h default_settings inp_one_posting inp_one_posting
    (generate_job_hash job_backend_engineer) (by decide)) (by decide)

/-- C2 as amended: the fingerprint set lives for one scraper instance, i.e.
one run.  Within a run, the first `_is_duplicate_job` call for a
fingerprint returns false and marks it seen, and every later call in the
same run returns true; the set is not carried into the next scheduled run
(see the counterexample). -/
theorem dedup_first_seen_within_instance (js : List JobData) (i : Nat)
    (j : JobData) (hget : js.get? i = some j) :
    (is_duplicate_calls [] js).get? i =
      some (decide (generate_job_hash j ∈ (js.take i).map generate_job_hash)) := by
  have h := is_duplicate_calls_get js [] i j hget
  simpa using h

/-- Witness for C2 as amended: two calls on the same posting in one
instance; the second call reports a duplicate. -/
theorem dedup_first_seen_within_instance_witness :
    ([job_backend_engineer, job_backend_engineer].get? 1 = some job_backend_engineer) ∧
    (is_duplicate_calls [] [job_backend_engineer, job_backend_engineer]).get? 1 =
      some (decide (generate_job_hash job_backend_engineer ∈
        ([job_backend_engineer, job_backend_engineer].take 1).map generate_job_hash)) :=
  ⟨rfl, dedup_first_seen_within_instance
    [job_backend_engineer, job_backend_engineer] 1 job_backend_engineer rfl⟩

/-- A per-source scraping loop run over records whose fingerprints are
pairwise distinct and not yet in the hash set keeps every record and adds
exactly those fingerprints to the set. -/
theorem scrape_loop_fresh (js : List JobData) :
    ∀ (seen : List String), ((js.map generate_job_hash).Nodup) →
      (∀ j ∈ js, generate_job_hash j ∉ seen) →
      (scrape_loop seen js).1 = js ∧
        ∀ h, h ∈ (scrape_loop seen js).2 ↔
          (h ∈ seen ∨ h ∈ js.map generate_job_hash) := by
  induction js with
  | nil =>
      intro seen _ _
      exact ⟨rfl, by intro h; simp [scrape_loop]⟩
  | cons a rest ih =>
      intro seen hnd hfresh
      have hna : generate_job_hash a ∉ seen := hfresh a (List.mem_cons_self a rest)
      have hdup : is_duplicate_job seen a = (false, generate_job_hash a :: seen) := by
        simp [is_duplicate_job, hna]
      rw [List.map_cons, List.nodup_cons] at hnd
      have hfresh2 : ∀ j ∈ rest, generate_job_hash j ∉ (generate_job_hash a :: seen) := by
        intro j hj
        simp only [List.mem_cons]
        rintro (heq | hin)
        · exact hnd.1 (heq ▸ List.mem_map_of_mem generate_job_hash hj)
        · exact hfresh j (List.mem_cons_of_mem a hj) hin
      have hrec := ih (generate_job_hash a :: seen) hnd.2 hfresh2
      constructor
      · simp only [scrape_loop, hdup]
        simp [hrec.1]
      · intro h
        simp only [scrape_loop, hdup]
        simp only [List.map_cons, List.mem_cons]
        rw [hrec.2 h]
        simp only [List.mem_cons]
        tauto

/-- C1 counterexample: a run in which every enabled source errors and zero
records are returned — the exact situation the claim says must be
classified as failed — is recorded as a success: `consecutive_failures`
stays 0 (instead of incrementing) and `last_success` is set, because every
adapter absorbs its fetch error and `record_run_failure` is unreachable
from adapter outcomes. -/
theorem run_failure_rule_cx :
    some_source_errored default_settings inp_all_error = true ∧
    run_enhanced_job_scraper default_settings inp_all_error (fun _ => 0) = (0, 0) ∧
    (scrape_jobs_task_run default_settings JobScrapingMetrics.init 0 inp_all_error
      (fun _ => 0)).metrics.consecutive_failures = 0 ∧
    (scrape_jobs_task_run default_settings JobScrapingMetrics.init 0 inp_all_error
      (fun _ => 0)).metrics.last_success = some 0 :=
  ⟨rfl, rfl, rfl, rfl⟩

/-- C1 as amended: adapter fetch errors never classify a run as failed —
every run whose scraper returns (which it does whenever no unexpected
exception escapes the task, regardless of per-source errors) is recorded
as a success with `consecutive_failures` reset to 0; `record_run_failure`
is reachable only from an exception escaping the task body.  In
particular, in a run with the three API-backed sources enabled where
RemoteOK errors on every fetch and the other two sources return records
with fresh distinct fingerprints, the batch is exactly the other two
records of the other two sources. -/
theorem run_success_despite_source_errors (st : Settings)
    (m : JobScrapingMetrics) (now : Int) (inp : RunInputs)
    (db : List JobData → Nat) (hen : st.SCRAPING_ENABLED = true)
    (hcf : m.consecutive_failures < 5) :
    ((scrape_jobs_task_run st m now inp db).metrics.consecutive_failures = 0 ∧
     (scrape_jobs_task_run st m now inp db).metrics.last_success = some now ∧
     (scrape_jobs_task_run st m now inp db).fetched = true) ∧
    (st.ENABLE_REMOTEOK = true → st.ENABLE_YCOMBINATOR = true →
     st.ENABLE_WELLFOUND = true → st.ENABLE_OTTA = false →
     inp.remoteok.jobs = [] →
     ((inp.ycombinator.jobs ++ inp.wellfound.jobs).map generate_job_hash).Nodup →
     (scrape_all_sources_batch st inp).1 = inp.ycombinator.jobs ++ inp.wellfound.jobs) := by
  constructor
  · rcases hq : run_enhanced_job_scraper st inp db with ⟨sc, sv⟩
    have hskip : scrape_jobs_task_run st m now inp db =
        { metrics := (m.record_run_start now).record_run_success now sc sv
          fetched := true, alerts := 0
          info_messages :=
            if st.ENABLE_ERROR_NOTIFICATIONS && decide (0 < sv) then 1 else 0 } := by
      unfold scrape_jobs_task_run scrape_jobs_task
      rw [hq, hen, if_neg (by simp),
        if_neg (show ¬(5 ≤ (m.record_run_start now).consecutive_failures) from by
          have he : (m.record_run_start now).consecutive_failures
              = m.consecutive_failures := rfl
          omega)]
    rw [hskip]
    exact ⟨rfl, rfl, rfl⟩
  · intro hrm hyc hwf hot hre hnd
    rw [List.map_append, List.nodup_append] at hnd
    obtain ⟨nd2, nd3, disj⟩ := hnd
    have h2 := scrape_loop_fresh inp.ycombinator.jobs [] nd2
      (by intro j _ hj; simp at hj)
    have fresh3 : ∀ j ∈ inp.wellfound.jobs,
        generate_job_hash j ∉ (scrape_loop [] inp.ycombinator.jobs).2 := by
      intro j hj hin
      rw [h2.2] at hin
      rcases hin with hin | hin
      · simp at hin
      · exact disj hin (List.mem_map_of_mem generate_job_hash hj)
    have h3 := scrape_loop_fresh inp.wellfound.jobs
      (scrape_loop [] inp.ycombinator.jobs).2 nd3 fresh3
    have hp1 : scrape_source st.ENABLE_REMOTEOK inp.remoteok [] = ([], []) := by
      rw [hrm]
      simp [scrape_source, hre, scrape_loop]
    have hp2 : scrape_source st.ENABLE_YCOMBINATOR inp.ycombinator ([] : List String)
        = (inp.ycombinator.jobs, (scrape_loop [] inp.ycombinator.jobs).2) := by
      rw [hyc]
      simp only [scrape_source, if_true]
      exact Prod.ext h2.1 rfl
    have hp3 : scrape_source st.ENABLE_WELLFOUND inp.wellfound
        (scrape_loop [] inp.ycombinator.jobs).2
        = (inp.wellfound.jobs,
            (scrape_loop (scrape_loop [] inp.ycombinator.jobs).2 inp.wellfound.jobs).2) := by
      rw [hwf]
      simp only [scrape_source, if_true]
      exact Prod.ext h3.1 rfl
    have hp4 : ∀ (s : List String), scrape_source st.ENABLE_OTTA inp.otta s = ([], s) := by
      intro s
      rw [hot]
      simp [scrape_source]
    simp only [scrape_all_sources_batch, hp1, hp2, hp3, hp4]
    simp

/-- Witness for C1 as amended at a concrete three-source run where RemoteOK
errors and the other two sources return one fresh posting each. -/
theorem run_success_despite_source_errors_witness :
    ((scrape_jobs_task_run { default_settings with ENABLE_OTTA := false }
        JobScrapingMetrics.init 0
        ⟨⟨[], true⟩, ⟨[job_data_engineer], false⟩, ⟨[job_ml_engineer], false⟩, ⟨[], false⟩⟩
        (fun _ => 0)).metrics.consecutive_failures = 0) ∧
    ((scrape_all_sources_batch { default_settings with ENABLE_OTTA := false }
        ⟨⟨[], true⟩, ⟨[job_data_engineer], false⟩, ⟨[job_ml_engineer], false⟩, ⟨[], false⟩⟩).1
      = [job_data_engineer] ++ [job_ml_engineer]) := by
  have h := run_success_despite_source_errors
    { default_settings with ENABLE_OTTA := false } JobScrapingMetrics.init 0
    ⟨⟨[], true⟩, ⟨[job_data_engineer], false⟩, ⟨[job_ml_engineer], false⟩, ⟨[], false⟩⟩
    (fun _ => 0) rfl (by decide)
  exact ⟨h.1.1, h.2 rfl rfl rfl rfl rfl (by decide)⟩

/-- C9 counterexample: an environment with a 1-minute interval and a
5-job target — below the 5-minute floor and the [10, 1000] target range —
is accepted by configuration load (no validator exists in `Settings`), and
the invalid interval is handed verbatim to the interval trigger of the
scheduler. -/
theorem settings_load_accepts_invalid_cx :
    Settings.load bad_env =
      some { default_settings with SCRAPING_INTERVAL_MINUTES := 1, SCRAPING_MAX_JOBS_PER_RUN := 5 } ∧
    ((1 : Int) < 5 ∧ (5 : Int) < 10) ∧
    ScheduledJob.mk "job_scraping_task" (some 1) 1 ∈
      JobScrapingScheduler.start { default_settings with SCRAPING_INTERVAL_MINUTES := 1, SCRAPING_MAX_JOBS_PER_RUN := 5 } := by
  refine ⟨rfl, by norm_num, by decide⟩

/-- C9 as amended: configuration loading performs no bounds validation:
whatever integers the environment supplies for the scrape interval and the
per-run target are accepted as-is and reach the scheduler, which registers
the scrape trigger with exactly the loaded interval. -/
theorem settings_load_unvalidated (si sj : String) (i t : Int)
    (h1 : str_toInt si = some i) (h2 : str_toInt sj = some t) :
    Settings.load [("SCRAPING_INTERVAL_MINUTES", si), ("SCRAPING_MAX_JOBS_PER_RUN", sj)] =
      some { default_settings with SCRAPING_INTERVAL_MINUTES := i, SCRAPING_MAX_JOBS_PER_RUN := t } ∧
    ScheduledJob.mk "job_scraping_task" (some i) 1 ∈
      JobScrapingScheduler.start { default_settings with SCRAPING_INTERVAL_MINUTES := i, SCRAPING_MAX_JOBS_PER_RUN := t } := by
  constructor
  · have e1 : env_int [("SCRAPING_INTERVAL_MINUTES", si), ("SCRAPING_MAX_JOBS_PER_RUN", sj)]
        "SCRAPING_INTERVAL_MINUTES" 60 = some i := by rw [← h1]; rfl
    have e2 : env_int [("SCRAPING_INTERVAL_MINUTES", si), ("SCRAPING_MAX_JOBS_PER_RUN", sj)]
        "SCRAPING_MAX_JOBS_PER_RUN" 200 = some t := by rw [← h2]; rfl
    have e3 : env_int [("SCRAPING_INTERVAL_MINUTES", si), ("SCRAPING_MAX_JOBS_PER_RUN", sj)]
        "RATE_LIMIT_REQUESTS_PER_MINUTE" 100 = some 100 := rfl
    have e4 : env_int [("SCRAPING_INTERVAL_MINUTES", si), ("SCRAPING_MAX_JOBS_PER_RUN", sj)]
        "RATE_LIMIT_BURST_SIZE" 20 = some 20 := rfl
    unfold Settings.load
    rw [e1, e2, e3, e4]
    rfl
  · simp [JobScrapingScheduler.start, default_settings]

/-- Witness for C9 as amended at the concrete invalid environment. -/
theorem settings_load_unvalidated_witness :
    (str_toInt "1" = some 1) ∧ (str_toInt "5" = some 5) ∧
    Settings.load [("SCRAPING_INTERVAL_MINUTES", "1"), ("SCRAPING_MAX_JOBS_PER_RUN", "5")] =
      some { default_settings with SCRAPING_INTERVAL_MINUTES := 1, SCRAPING_MAX_JOBS_PER_RUN := 5 } :=
  ⟨rfl, rfl, (settings_load_unvalidated "1" "5" 1 5 rfl rfl).1⟩
